import Mathlib

/-!
Shallow embedding of the React-Custom-Tools repository (KaguilarA/React-Custom-Tools):
a counter hook (`useCounter`), a form hook (`useForm`), two duplicated request hooks
(`useApi` in one file, `useFetch` in another), and an auth pair (`authReducer`,
`AuthProvider` with `initializeAuthState`, `onLogIn`, `onLogOut`) backed by a
sessionStorage slot.

JavaScript values that cross the JSON boundary are modelled by the inductive `Json`.
Browser built-ins (`JSON.parse`, `JSON.stringify`, `Response.ok`) are modelled
explicitly: `JSON.parse` as a function parameter `parse : String → Option Json`
(`none` = the parse throws), `JSON.stringify` by `Json.stringify`, `Response.ok`
by `JsResponse.ok` (status in 200..299).  React state updates inside one hook are
modelled as sequential assignments; `useEffect` re-runs are modelled explicitly
where a claim depends on them (the `useForm` validation effect).
-/

namespace ReactCustomTools

/-- JSON values (the payloads that cross `JSON.parse`/`JSON.stringify` and the
network boundary).  JavaScript numbers are modelled as integers, which covers
every value the claims mention. -/
inductive Json where
  | null : Json
  | bool : Bool → Json
  | num : Int → Json
  | str : String → Json
  | arr : List Json → Json
  | obj : List (String × Json) → Json

/-- JavaScript truthiness of a JSON value: `null`, `false`, `0` and `""` are
falsy; every other JSON value (including empty arrays and objects) is truthy. -/
def Json.truthy : Json → Bool
  | .null => false
  | .bool b => b
  | .num n => n != 0
  | .str s => s != ""
  | .arr _ => true
  | .obj _ => true

/-- Whether a JSON value is the JavaScript `null`. -/
def Json.isNull : Json → Bool
  | .null => true
  | _ => false

/-- Escape of one character inside a JSON string literal (the fragment of the
`JSON.stringify` escaping the repository's payloads can reach). -/
def escapeJsonChar (c : Char) : String :=
  if c = '"' then "\\\""
  else if c = '\\' then "\\\\"
  else if c = '\n' then "\\n"
  else if c = '\t' then "\\t"
  else if c = '\r' then "\\r"
  else String.singleton c

/-- Escape of a whole JSON string literal body. -/
def escapeJson (s : String) : String :=
  String.join (s.toList.map escapeJsonChar)

mutual

/-- Model of the browser built-in `JSON.stringify` on `Json` values. -/
def Json.stringify : Json → String
  | .null => "null"
  | .bool true => "true"
  | .bool false => "false"
  | .num n => toString n
  | .str s => "\"" ++ escapeJson s ++ "\""
  | .arr xs => "[" ++ stringifyList xs ++ "]"
  | .obj fs => "\x7b" ++ stringifyFields fs ++ "\x7d"

/-- Comma-separated serialization of an array's elements. -/
def stringifyList : List Json → String
  | [] => ""
  | [x] => Json.stringify x
  | x :: y :: rest => Json.stringify x ++ "," ++ stringifyList (y :: rest)

/-- Comma-separated serialization of an object's fields. -/
def stringifyFields : List (String × Json) → String
  | [] => ""
  | [(k, v)] => "\"" ++ escapeJson k ++ "\":" ++ Json.stringify v
  | (k, v) :: f :: rest =>
      "\"" ++ escapeJson k ++ "\":" ++ Json.stringify v ++ "," ++ stringifyFields (f :: rest)

end

/-! ## Auth: action types (src/types/authTypes.js) -/

/-- Shape of the `authTypes` constant. -/
structure AuthTypes where
  login : String
  logout : String

/-- `authTypes` from src/types/authTypes.js. -/
def authTypes : AuthTypes :=
  { login := "[Auth] Log in", logout := "[Auth] Log out" }

/-! ## Auth: reducer (authReducer.js, part_001 lines 11-49) -/

/-- Auth state: `logged` flag and the user `data` payload (`Json.null` models
the JavaScript `null`). -/
structure AuthState where
  logged : Bool
  data : Json

/-- `initialAuthState` from authReducer.js: `logged: false, data: null`. -/
def initialAuthState : AuthState :=
  { logged := false, data := Json.null }

/-- A dispatched action `\x7b type, payload \x7d`.  The `logout` dispatch in the
provider carries no payload and the reducer's logout branch ignores it, so the
missing payload is modelled as `Json.null`. -/
structure AuthAction where
  type : String
  payload : Json

/-- `authReducer` from authReducer.js: `login` overwrites `logged := true` and
`data := payload`; `logout` returns a copy of `initialAuthState`; any other tag
returns the current state unchanged. -/
def authReducer (initialState : AuthState) (action : AuthAction) : AuthState :=
  if action.type = authTypes.login then
    { initialState with logged := true, data := action.payload }
  else if action.type = authTypes.logout then
    initialAuthState
  else
    initialState

/-! ## Auth: provider (AuthProvider.jsx, part_000)

The provider owns one named sessionStorage slot; the slot's content is modelled
as `Option String` (`none` = key absent).  `JSON.parse` is a parameter
`parse : String → Option Json` where `none` means the parse throws. -/

/-- The first half of `initializeAuthState`'s try block:
`const raw = sessionStorage.getItem(name); const data = raw ? JSON.parse(raw) : null;`.
A falsy `raw` (absent key or empty string) yields `data = null` without parsing;
otherwise the parse either yields a value (`some`) or throws (`none`). -/
def authParseStep (parse : String → Option Json) (slot : Option String) : Option Json :=
  match slot with
  | none => some Json.null
  | some raw => if raw = "" then some Json.null else parse raw

/-- `initializeAuthState` from AuthProvider.jsx (part_000 lines 27-41): on a
successful read it returns `\x7b ...initialAuthState, logged: !!data, data \x7d`;
if `JSON.parse` throws, the catch branch returns `\x7b ...initialAuthState \x7d`. -/
def initializeAuthState (parse : String → Option Json) (slot : Option String) : AuthState :=
  match authParseStep parse slot with
  | some data => { initialAuthState with logged := data.truthy, data := data }
  | none => initialAuthState

/-- Provider-level environment: the reducer state plus the named storage slot. -/
structure AuthEnv where
  state : AuthState
  slot : Option String

/-- `onLogIn` from AuthProvider.jsx (part_000 lines 70-73): dispatch the login
action with the payload, then `sessionStorage.setItem(name, JSON.stringify(data))`. -/
def onLogIn (data : Json) (e : AuthEnv) : AuthEnv :=
  { state := authReducer e.state { type := authTypes.login, payload := data },
    slot := some data.stringify }

/-- `onLogOut` from AuthProvider.jsx (part_000 lines 79-82): dispatch the logout
action, then `sessionStorage.removeItem(name)`. -/
def onLogOut (e : AuthEnv) : AuthEnv :=
  { state := authReducer e.state { type := authTypes.logout, payload := Json.null },
    slot := none }

/-- The provider actions a consumer can invoke. -/
inductive AuthOp where
  | logIn : Json → AuthOp
  | logOut : AuthOp

/-- One provider action applied to the reducer state. -/
def authStep (s : AuthState) : AuthOp → AuthState
  | .logIn p => authReducer s { type := authTypes.login, payload := p }
  | .logOut => authReducer s { type := authTypes.logout, payload := Json.null }

/-- Reducer state reached from `s` by a sequence of provider actions. -/
def authRun (s : AuthState) (ops : List AuthOp) : AuthState :=
  ops.foldl authStep s

/-- The spec's auth-state invariant, as a decidable statement:
`logged` is true iff `data` is non-null. -/
def authInv (s : AuthState) : Bool :=
  s.logged = !s.data.isNull

/-- A concrete model of `JSON.parse` on the strings the witnesses and
counterexamples use, agreeing with the browser built-in there:
`JSON.parse("0") = 0`, `JSON.parse('\x7b"id":1\x7d') = \x7bid: 1\x7d`,
everything else throws. -/
def parseSample : String → Option Json := fun s =>
  if s = "0" then some (Json.num 0)
  else if s = "\x7b\"id\":1\x7d" then some (Json.obj [("id", Json.num 1)])
  else none

/-! ## useCounter (useCounter.js, part_003)

The counter state is one number, modelled as `Int` (the claims quantify over
integers). -/

/-- `increment` from useCounter.js: `setCount(count + value)` (default `value = 1`). -/
def useCounter_increment (count : Int) (value : Int := 1) : Int :=
  count + value

/-- `decrement` from useCounter.js: `if (count === 0) return;` then
`setCount(count - value)` (default `value = 1`). -/
def useCounter_decrement (count : Int) (value : Int := 1) : Int :=
  if count = 0 then count else count - value

/-- `reset` from useCounter.js: `setCount(initialValue)`. -/
def useCounter_reset (initialValue : Int) (_count : Int) : Int :=
  initialValue

/-! ## Request executors (useApi in part_001 lines 70-134, useFetch in part_002)

The two hooks are textually identical in logic; each is embedded separately
from its own file so their equivalence can be stated.  The hook-local React
state is `\x7b data, hasError, isLoading \x7d`; a call to `request` is modelled as a
state transition parameterised by the outcome of the awaited `fetch`. -/

/-- The hook's tracked state: `data` starts as `null`, `hasError` as `null`
(`Option String`), `isLoading` as `false`. -/
structure FetchState where
  data : Json
  hasError : Option String
  isLoading : Bool

/-- A settled `fetch` response: HTTP status, status text, and the result of
`resp.json()` (`Except` error message on a body that fails to parse, which
throws a `SyntaxError`). -/
structure JsResponse where
  status : Nat
  statusText : String
  body : Except String Json

/-- The browser's `Response.ok`: status in the range 200..299. -/
def JsResponse.ok (r : JsResponse) : Bool :=
  200 ≤ r.status && r.status ≤ 299

/-- How the awaited `fetch(...)` settles: a response arrives, or the promise
rejects with an error carrying a `name` and a `message` (an abort rejects with
`name = "AbortError"`, a network failure with `name = "TypeError"`). -/
inductive FetchOutcome where
  | response : JsResponse → FetchOutcome
  | thrown : String → String → FetchOutcome

/-- The message of the error thrown on a non-2xx response:
`` `HTTP $\x7bresp.status\x7d: $\x7bresp.statusText\x7d` ``. -/
def httpErrorMessage (status : Nat) (statusText : String) : String :=
  "HTTP " ++ toString status ++ ": " ++ statusText

/-- Resolved hook options. -/
structure ResolvedOptions where
  headers : List (String × String)
  autoFetch : Bool

/-- The caller-supplied options object: each field possibly absent. -/
structure FetchOptions where
  headers : Option (List (String × String)) := none
  autoFetch : Option Bool := none

/-- The request actually handed to `fetch`: url, method, headers (later entries
override earlier ones on duplicate keys, as in an object spread), and the
serialized body string (or no body). -/
structure SentRequest where
  url : String
  method : String
  headers : List (String × String)
  body : Option String

/-! ### useApi (part_001 lines 70-134) -/

/-- `useApi` option destructuring: `const \x7b headers = \x7b\x7d, autoFetch = false \x7d = options`
with `options = \x7b\x7d` when the argument is omitted. -/
def useApi_resolveOptions (options : Option FetchOptions) : ResolvedOptions :=
  let o := options.getD {}
  { headers := o.headers.getD [], autoFetch := o.autoFetch.getD false }

/-- `useApi` initial hook state: `useState(null)`, `useState(null)`, `useState(false)`. -/
def useApi_initialState : FetchState :=
  { data := Json.null, hasError := none, isLoading := false }

/-- The request `useApi.request` hands to `fetch`: the given method, a
`Content-Type: application/json` header merged with the custom headers, and
`body ? JSON.stringify(body) : null` (a falsy body value sends no body). -/
def useApi_buildRequest (url : String) (headers : List (String × String))
    (method : String) (body : Json) : SentRequest :=
  { url := url, method := method,
    headers := ("Content-Type", "application/json") :: headers,
    body := if body.truthy then some body.stringify else none }

/-- The state transition of one `useApi.request` call: set `isLoading := true`
and clear `hasError`; on an ok response store the parsed body in `data`; on a
non-2xx response throw `Error` with the HTTP message; in the catch set
`hasError` unless the error's name is `"AbortError"`; in the finally clear
`isLoading`. -/
def useApi_request (s : FetchState) (outcome : FetchOutcome) : FetchState :=
  let s1 : FetchState := { s with isLoading := true, hasError := none }
  let s2 : FetchState :=
    match outcome with
    | .response r =>
        if r.ok then
          match r.body with
          | .ok result => { s1 with data := result }
          | .error msg => { s1 with hasError := some msg }
        else
          { s1 with hasError := some (httpErrorMessage r.status r.statusText) }
    | .thrown name msg =>
        if name = "AbortError" then s1 else { s1 with hasError := some msg }
  { s2 with isLoading := false }

/-- The requests `useApi`'s mount effect issues: one GET when `autoFetch` is
true, none otherwise. -/
def useApi_mountRequests (autoFetch : Bool) : List String :=
  if autoFetch then ["GET"] else []

/-- `useApi`'s `get`: `request("GET")` (no body). -/
def useApi_get (url : String) (headers : List (String × String)) : SentRequest :=
  useApi_buildRequest url headers "GET" Json.null

/-- `useApi`'s `post`: `request("POST", body)`. -/
def useApi_post (url : String) (headers : List (String × String)) (body : Json) : SentRequest :=
  useApi_buildRequest url headers "POST" body

/-- `useApi`'s `put`: `request("PUT", body)`. -/
def useApi_put (url : String) (headers : List (String × String)) (body : Json) : SentRequest :=
  useApi_buildRequest url headers "PUT" body

/-- `useApi`'s `patch`: `request("PATCH", body)`. -/
def useApi_patch (url : String) (headers : List (String × String)) (body : Json) : SentRequest :=
  useApi_buildRequest url headers "PATCH" body

/-- `useApi`'s `remove`: `request("DELETE")` (no body). -/
def useApi_remove (url : String) (headers : List (String × String)) : SentRequest :=
  useApi_buildRequest url headers "DELETE" Json.null

/-! ### useFetch (part_002) -/

/-- `useFetch` option destructuring: `const \x7b headers = \x7b\x7d, autoFetch = false \x7d = options`
with `options = \x7b\x7d` when the argument is omitted. -/
def useFetch_resolveOptions (options : Option FetchOptions) : ResolvedOptions :=
  let o := options.getD {}
  { headers := o.headers.getD [], autoFetch := o.autoFetch.getD false }

/-- `useFetch` initial hook state: `useState(null)`, `useState(null)`, `useState(false)`. -/
def useFetch_initialState : FetchState :=
  { data := Json.null, hasError := none, isLoading := false }

/-- The request `useFetch.request` hands to `fetch`: the given method, a
`Content-Type: application/json` header merged with the custom headers, and
`body ? JSON.stringify(body) : null` (a falsy body value sends no body). -/
def useFetch_buildRequest (url : String) (headers : List (String × String))
    (method : String) (body : Json) : SentRequest :=
  { url := url, method := method,
    headers := ("Content-Type", "application/json") :: headers,
    body := if body.truthy then some body.stringify else none }

/-- The state transition of one `useFetch.request` call: set `isLoading := true`
and clear `hasError`; on an ok response store the parsed body in `data`; on a
non-2xx response throw `Error` with the HTTP message; in the catch set
`hasError` unless the error's name is `"AbortError"`; in the finally clear
`isLoading`. -/
def useFetch_request (s : FetchState) (outcome : FetchOutcome) : FetchState :=
  let s1 : FetchState := { s with isLoading := true, hasError := none }
  let s2 : FetchState :=
    match outcome with
    | .response r =>
        if r.ok then
          match r.body with
          | .ok result => { s1 with data := result }
          | .error msg => { s1 with hasError := some msg }
        else
          { s1 with hasError := some (httpErrorMessage r.status r.statusText) }
    | .thrown name msg =>
        if name = "AbortError" then s1 else { s1 with hasError := some msg }
  { s2 with isLoading := false }

/-- The requests `useFetch`'s mount effect issues: one GET when `autoFetch` is
true, none otherwise. -/
def useFetch_mountRequests (autoFetch : Bool) : List String :=
  if autoFetch then ["GET"] else []

/-- `useFetch`'s `get`: `request("GET")` (no body). -/
def useFetch_get (url : String) (headers : List (String × String)) : SentRequest :=
  useFetch_buildRequest url headers "GET" Json.null

/-- `useFetch`'s `post`: `request("POST", body)`. -/
def useFetch_post (url : String) (headers : List (String × String)) (body : Json) : SentRequest :=
  useFetch_buildRequest url headers "POST" body

/-- `useFetch`'s `put`: `request("PUT", body)`. -/
def useFetch_put (url : String) (headers : List (String × String)) (body : Json) : SentRequest :=
  useFetch_buildRequest url headers "PUT" body

/-- `useFetch`'s `patch`: `request("PATCH", body)`. -/
def useFetch_patch (url : String) (headers : List (String × String)) (body : Json) : SentRequest :=
  useFetch_buildRequest url headers "PATCH" body

/-- `useFetch`'s `remove`: `request("DELETE")` (no body). -/
def useFetch_remove (url : String) (headers : List (String × String)) : SentRequest :=
  useFetch_buildRequest url headers "DELETE" Json.null

/-! ## useForm (useForm.js, part_004)

The form state is a string-keyed mapping of field values (string, or boolean
for checkboxes), modelled as an association list that preserves JavaScript
object key order.  The validation `useEffect` has dependency array
`[formState, validateFn]`: with a stable `validateFn` it re-runs exactly when
the `formState` object's identity changes.  Identity is tracked by the flag
`sameRefAsInitial`: `onInputChange` always builds a fresh object (identity
always changes), while `onResetForm`'s `setFormState(initialForm)` passes the
original object, so React bails out — and the effect does not re-run — when the
current state is still that object. -/

/-- A form field value: the raw string value, or the checked flag for
checkbox-type fields. -/
inductive FieldValue where
  | str : String → FieldValue
  | bool : Bool → FieldValue
deriving DecidableEq, Repr

/-- A string-keyed mapping (JavaScript object) used for form state. -/
abbrev FormMap : Type := List (String × FieldValue)

/-- A string-keyed mapping of validation error messages. -/
abbrev ErrMap : Type := List (String × String)

/-- The object update `\x7b ...prev, [name]: v \x7d`: an existing key keeps its
position and gets the new value; a new key is appended. -/
def setField : FormMap → String → FieldValue → FormMap
  | [], name, v => [(name, v)]
  | (k, w) :: rest, name, v =>
      if k = name then (name, v) :: rest else (k, w) :: setField rest name v

/-- The hook's construction-time inputs: the initial form object and the
optional validation function (`validateFn` returns an error mapping; a
mapping — even an empty one — is truthy in JavaScript, so the code's
`validationErrors || \x7b\x7d` guard is the identity on it). -/
structure FormHook where
  initialForm : FormMap
  validateFn : Option (FormMap → ErrMap)

/-- The hook's tracked state, plus the identity flag for the validation
effect's dependency check. -/
structure UseFormState where
  formState : FormMap
  errors : ErrMap
  sameRefAsInitial : Bool

/-- One run of the validation `useEffect` body (part_004 lines 48-53), executed
only when its dependencies changed: `if (validateFn) setErrors(validateFn(formState))`. -/
def runValidationEffect (h : FormHook) (changed : Bool) (s : UseFormState) : UseFormState :=
  if changed then
    match h.validateFn with
    | some f => { s with errors := f s.formState }
    | none => s
  else s

/-- Hook activation: `useState(initialForm)`, `useState(\x7b\x7d)`, then the mount
run of every effect (the `[initialForm]` effect re-sets the same object — a
bail-out — and the validation effect always runs on mount). -/
def formInit (h : FormHook) : UseFormState :=
  runValidationEffect h true
    { formState := h.initialForm, errors := [], sameRefAsInitial := true }

/-- The operations a consumer can invoke on the hook. -/
inductive FormOp where
  | inputChange : String → String → String → Bool → FormOp
  | resetForm : FormOp

/-- One consumer operation followed by the re-render's validation effect.
`inputChange name ty value checked` models `onInputChange` on a target with
those fields: the stored value is `checked` for `type === "checkbox"`, the raw
`value` otherwise; the spread always creates a fresh object, so the validation
effect re-runs.  `resetForm` models `onResetForm`: `setFormState(initialForm)`
and `setErrors(\x7b\x7d)`; the validation effect re-runs only if the form state was
not already the initial object. -/
def formStep (h : FormHook) (s : UseFormState) : FormOp → UseFormState
  | .inputChange name ty value checked =>
      let v := if ty = "checkbox" then FieldValue.bool checked else FieldValue.str value
      runValidationEffect h true
        { formState := setField s.formState name v, errors := s.errors,
          sameRefAsInitial := false }
  | .resetForm =>
      runValidationEffect h (!s.sameRefAsInitial)
        { formState := h.initialForm, errors := [], sameRefAsInitial := true }

/-- Hook state after activation and a sequence of consumer operations. -/
def formRun (h : FormHook) (ops : List FormOp) : UseFormState :=
  ops.foldl (formStep h) (formInit h)

/-- `isValid` from useForm.js: `Object.keys(errors).length === 0`. -/
def formIsValid (s : UseFormState) : Bool :=
  s.errors.isEmpty

/-! ## Sample data used by witnesses and counterexamples -/

/-- The README's example validator for `\x7b name: '' \x7d`-style forms: an empty
`name` field is an error. -/
def sampleValidate (m : FormMap) : ErrMap :=
  if m.lookup "name" = some (FieldValue.str "") then [("name", "Name is required")] else []

/-- A form hook with one text field and the sample validator. -/
def formSample : FormHook :=
  { initialForm := [("name", FieldValue.str "")], validateFn := some sampleValidate }

/-- A form hook with one text field and no validation function. -/
def formNoVal : FormHook :=
  { initialForm := [("name", FieldValue.str "")], validateFn := none }

/-! ## Theorems -/

/-- Claim C3: on a response whose status is outside 200-299, each request
executor ends the call with `hasError = "HTTP <status>: <statusText>"`, `data`
unchanged from before the call, and `isLoading = false`, for every prior
executor state. -/
theorem C3_non2xx_sets_hasError (s : FetchState) (r : JsResponse)
    (h : r.status < 200 ∨ 299 < r.status) :
    (useFetch_request s (.response r)).hasError
        = some ("HTTP " ++ toString r.status ++ ": " ++ r.statusText) ∧
    (useFetch_request s (.response r)).data = s.data ∧
    (useFetch_request s (.response r)).isLoading = false ∧
    (useApi_request s (.response r)).hasError
        = some ("HTTP " ++ toString r.status ++ ": " ++ r.statusText) ∧
    (useApi_request s (.response r)).data = s.data ∧
    (useApi_request s (.response r)).isLoading = false := by
  have hok : r.ok = false := by
    simp only [JsResponse.ok, Bool.and_eq_false_iff, decide_eq_false_iff_not, not_le]
    omega
  simp [useFetch_request, useApi_request, hok, httpErrorMessage]

/-- Witness for C3 at the spec's example: a 404 Not Found response. -/
theorem C3_witness :
    (useFetch_request { data := Json.num 7, hasError := none, isLoading := false }
        (.response { status := 404, statusText := "Not Found", body := .error "x" })).hasError
      = some "HTTP 404: Not Found" ∧
    (useFetch_request { data := Json.num 7, hasError := none, isLoading := false }
        (.response { status := 404, statusText := "Not Found", body := .error "x" })).data
      = Json.num 7 := by
  have h := C3_non2xx_sets_hasError
    { data := Json.num 7, hasError := none, isLoading := false }
    { status := 404, statusText := "Not Found", body := .error "x" }
    (by right; decide)
  exact ⟨h.1, h.2.1⟩

/-- Claim C4 fails as stated: starting at count `-1`, `increment(1)` reaches `0`,
where `decrement` is a no-op, so the round trip ends at `0`, not `-1`. -/
theorem C4_counterexample :
    useCounter_decrement (useCounter_increment (-1) 1) 1 ≠ -1 := by decide

/-- Claim C4 (amended): `increment(amount)` followed by `decrement(amount)`
restores the original count provided the intermediate count
`count + amount` is nonzero (at `0`, `decrement` is a no-op by the guard
`if (count === 0) return`). -/
theorem C4_amended_roundtrip (count amount : Int) (h : count + amount ≠ 0) :
    useCounter_decrement (useCounter_increment count amount) amount = count := by
  simp [useCounter_increment, useCounter_decrement, h]

/-- Witness for C4 at count 5, amount 3. -/
theorem C4_witness :
    (5 : Int) + 3 ≠ 0 ∧ useCounter_decrement (useCounter_increment 5 3) 3 = 5 :=
  ⟨by decide, C4_amended_roundtrip 5 3 (by decide)⟩

/-- Claim C7: for every payload `p` and prior provider environment, `onLogIn p`
yields `logged = true`, `data = p`, and the storage slot holding the JSON
serialization of `p`; a subsequent `onLogOut` yields `logged = false`,
`data = null`, and the slot removed.  The last conjunct checks the spec's
example serialization of `\x7b id: 1 \x7d`. -/
theorem C7_login_logout_storage (p : Json) (e : AuthEnv) :
    (onLogIn p e).state.logged = true ∧
    (onLogIn p e).state.data = p ∧
    (onLogIn p e).slot = some p.stringify ∧
    (onLogOut (onLogIn p e)).state.logged = false ∧
    (onLogOut (onLogIn p e)).state.data = Json.null ∧
    (onLogOut (onLogIn p e)).slot = none ∧
    Json.stringify (Json.obj [("id", Json.num 1)]) = "\x7b\"id\":1\x7d" := by
  refine ⟨rfl, rfl, rfl, rfl, rfl, rfl, rfl⟩

/-- Claim C8: a call whose awaited fetch rejects with an `AbortError`
(the teardown abort) ends with `hasError = null` and `isLoading = false`,
from every prior executor state, in both executors: the catch block skips
`setHasError` exactly when the error's name is `"AbortError"`, and the call
itself cleared `hasError` on entry. -/
theorem C8_abort_swallowed (s : FetchState) (msg : String) :
    (useFetch_request s (.thrown "AbortError" msg)).hasError = none ∧
    (useFetch_request s (.thrown "AbortError" msg)).isLoading = false ∧
    (useApi_request s (.thrown "AbortError" msg)).hasError = none ∧
    (useApi_request s (.thrown "AbortError" msg)).isLoading = false := by
  refine ⟨rfl, rfl, rfl, rfl⟩

/-- Claim C9: the two request-executor hooks are behaviorally equivalent:
option resolution, initial state, the request handed to fetch (method, merged
headers, serialized body), the per-call state transition (including error
handling and abort swallowing), the mount/auto-fetch behavior, and every
method wrapper agree as functions. -/
theorem C9_duplicate_executor_equiv :
    useApi_resolveOptions = useFetch_resolveOptions ∧
    useApi_initialState = useFetch_initialState ∧
    useApi_buildRequest = useFetch_buildRequest ∧
    useApi_request = useFetch_request ∧
    useApi_mountRequests = useFetch_mountRequests ∧
    useApi_get = useFetch_get ∧
    useApi_post = useFetch_post ∧
    useApi_put = useFetch_put ∧
    useApi_patch = useFetch_patch ∧
    useApi_remove = useFetch_remove :=
  ⟨rfl, rfl, rfl, rfl, rfl, rfl, rfl, rfl, rfl, rfl⟩

/-- Claim C10: when the options argument is omitted or does not set
`autoFetch`, the resolved `autoFetch` is `false` (the destructuring default),
the mount effect issues no request, and the executor starts with
`data = null`, `hasError = null`, `isLoading = false` — in both hooks. -/
theorem C10_autoFetch_default (o : FetchOptions) (ho : o.autoFetch = none) :
    (useFetch_resolveOptions none).autoFetch = false ∧
    (useFetch_resolveOptions (some o)).autoFetch = false ∧
    (useApi_resolveOptions none).autoFetch = false ∧
    (useApi_resolveOptions (some o)).autoFetch = false ∧
    useFetch_mountRequests false = [] ∧
    useApi_mountRequests false = [] ∧
    useFetch_initialState.data = Json.null ∧
    useFetch_initialState.hasError = none ∧
    useFetch_initialState.isLoading = false ∧
    useApi_initialState.data = Json.null ∧
    useApi_initialState.hasError = none ∧
    useApi_initialState.isLoading = false := by
  simp [useFetch_resolveOptions, useApi_resolveOptions, ho, useFetch_mountRequests,
    useApi_mountRequests, useFetch_initialState, useApi_initialState]

/-- Witness for C10 at an options object that sets headers but not autoFetch. -/
theorem C10_witness :
    (useFetch_resolveOptions (some { headers := some [("a", "b")], autoFetch := none })).autoFetch
      = false ∧
    (useApi_resolveOptions (some { headers := some [("a", "b")], autoFetch := none })).autoFetch
      = false := by
  have h := C10_autoFetch_default { headers := some [("a", "b")], autoFetch := none } rfl
  exact ⟨h.2.1, h.2.2.2.1⟩

/-- Claim C1 fails as stated: from a legitimately initialized state (absent
storage slot), `onLogIn(null)` drives the LOGIN transition with a null payload,
reaching `logged = true` with `data = null`. -/
theorem C1_counterexample :
    authInv (authRun (initializeAuthState parseSample none) [AuthOp.logIn Json.null])
      = false := rfl

/-- Claim C1 (amended): the invariant `logged = true ↔ data ≠ null` holds in
every reachable auth state provided every LOGIN payload is non-null and the
initialization parse yields null or a truthy value; in general the LOGIN
transition sets `logged = true` for any payload (null included) and
initialization sets `logged` to the truthiness of the parsed data, so falsy
non-null storage values (such as `0`) break the invariant. -/
theorem C1_amended_auth_invariant (parse : String → Option Json) (slot : Option String)
    (ops : List AuthOp)
    (hinit : ∀ v, authParseStep parse slot = some v → v.isNull = true ∨ v.truthy = true)
    (hops : ∀ p, AuthOp.logIn p ∈ ops → p.isNull = false) :
    authInv (authRun (initializeAuthState parse slot) ops) = true := by
  have hbase : authInv (initializeAuthState parse slot) = true := by
    unfold initializeAuthState
    cases hp : authParseStep parse slot with
    | none => rfl
    | some v =>
        rcases hinit v hp with hn | ht <;>
          cases v <;> simp_all [authInv, Json.isNull, Json.truthy]
  have aux : ∀ (l : List AuthOp) (s : AuthState),
      authInv s = true → (∀ p, AuthOp.logIn p ∈ l → p.isNull = false) →
      authInv (authRun s l) = true := by
    intro l
    induction l with
    | nil => intro s hs _; exact hs
    | cons op rest ih =>
        intro s hs hl
        have hstep : authInv (authStep s op) = true := by
          cases op with
          | logIn p =>
              have hp : p.isNull = false := hl p (List.mem_cons_self _ _)
              simp [authStep, authReducer, authTypes, authInv, hp]
          | logOut => rfl
        exact ih (authStep s op) hstep (fun p hp => hl p (List.mem_cons_of_mem _ hp))
  exact aux ops _ hbase hops

/-- Witness for C1 at a stored `'\x7b"id":1\x7d'` slot followed by a login with
payload `\x7b id: 1 \x7d` and a logout. -/
theorem C1_witness :
    authInv (authRun (initializeAuthState parseSample (some "\x7b\"id\":1\x7d"))
      [AuthOp.logIn (Json.obj [("id", Json.num 1)]), AuthOp.logOut]) = true := by
  apply C1_amended_auth_invariant
  · intro v hv
    have heq : authParseStep parseSample (some "\x7b\"id\":1\x7d")
        = some (Json.obj [("id", Json.num 1)]) := rfl
    rw [heq] at hv
    injection hv with hv
    subst hv
    right; rfl
  · intro p hp
    simp only [List.mem_cons, List.not_mem_nil, or_false] at hp
    rcases hp with hp | hp
    · injection hp with hp
      subst hp
      rfl
    · exact absurd hp (by simp)

/-- Claim C2 fails as stated: `"0"` is valid JSON, but initialization from a
slot holding `"0"` yields `logged = false` with `data = 0`, not a LoggedIn
state: the code sets `logged` to the truthiness of the parsed value, not to
its non-nullness. -/
theorem C2_counterexample :
    parseSample "0" = some (Json.num 0) ∧
    (initializeAuthState parseSample (some "0")).logged = false ∧
    (initializeAuthState parseSample (some "0")).data = Json.num 0 :=
  ⟨rfl, rfl, rfl⟩

/-- Claim C2 (amended): initialization never throws (the embedding is a total
function whose catch branch is the `none` case of the parse); an absent slot,
an empty-string slot, or unparsable content yields the logged-out state
`\x7b logged := false, data := null \x7d`; content parsed as `v` yields
`data = v` and `logged` equal to the JavaScript truthiness of `v` — a
LoggedIn state exactly when `v` is truthy. -/
theorem C2_amended_init (parse : String → Option Json) :
    initializeAuthState parse none = initialAuthState ∧
    initializeAuthState parse (some "") = initialAuthState ∧
    (∀ s, s ≠ "" → parse s = none → initializeAuthState parse (some s) = initialAuthState) ∧
    (∀ s v, s ≠ "" → parse s = some v →
      initializeAuthState parse (some s) = { logged := v.truthy, data := v }) := by
  refine ⟨rfl, rfl, ?_, ?_⟩
  · intro s hs hp
    simp [initializeAuthState, authParseStep, hs, hp]
  · intro s v hs hp
    simp [initializeAuthState, authParseStep, hs, hp, initialAuthState]

/-- Witness for C2 at unparsable content `"oops"` and at the valid JSON slot
`'\x7b"id":1\x7d'`. -/
theorem C2_witness :
    initializeAuthState parseSample (some "oops") = initialAuthState ∧
    initializeAuthState parseSample (some "\x7b\"id\":1\x7d")
      = { logged := true, data := Json.obj [("id", Json.num 1)] } := by
  constructor
  · exact (C2_amended_init parseSample).2.2.1 "oops" (by decide) rfl
  · exact (C2_amended_init parseSample).2.2.2 "\x7b\"id\":1\x7d"
      (Json.obj [("id", Json.num 1)]) (by decide) rfl

/-- Claim C5 fails as stated: with the README's validator, editing the field
and then resetting makes the reset's `setFormState(initialForm)` change the
state object back, so the validation effect re-runs on the initial mapping and
leaves `errors = f(initialForm) ≠ ∅` after the reset has settled. -/
theorem C5_counterexample :
    (formRun formSample
        [FormOp.inputChange "name" "text" "Kevin" false, FormOp.resetForm]).errors
      = [("name", "Name is required")] ∧
    (formRun formSample
        [FormOp.inputChange "name" "text" "Kevin" false, FormOp.resetForm]).errors
      ≠ [] := by
  refine ⟨rfl, by decide⟩

/-- Claim C5 (amended): after `onResetForm()` the form state equals the
original initial mapping; once the automatic revalidation triggered by the
reset has run, the errors mapping is empty when no validation function was
supplied or when the form state was still the initial object (no effect
re-run), and otherwise equals `f(initialForm)` — which need not be empty. -/
theorem C5_amended_reset (h : FormHook) (ops : List FormOp) :
    (formRun h (ops ++ [FormOp.resetForm])).formState = h.initialForm ∧
    (formRun h (ops ++ [FormOp.resetForm])).errors =
      (match h.validateFn, (formRun h ops).sameRefAsInitial with
       | none, _ => []
       | some _, true => []
       | some f, false => f h.initialForm) := by
  have hfold : formRun h (ops ++ [FormOp.resetForm])
      = formStep h (formRun h ops) FormOp.resetForm := by
    simp [formRun, List.foldl_append]
  rw [hfold]
  cases hv : h.validateFn <;> cases hr : (formRun h ops).sameRefAsInitial <;>
    simp [formStep, runValidationEffect, hv, hr]

/-- Claim C6: with a validation function `f` supplied, `errors = f(formState)`
holds at activation, after every `onInputChange`, and after every reset that
actually changes the form state; with no validation function, `errors` stays
empty after every operation sequence; and `isValid` is true exactly when the
errors mapping is empty. -/
theorem C6_validation_invariant (h : FormHook) (ops : List FormOp) :
    (formIsValid (formRun h ops) = true ↔ (formRun h ops).errors = []) ∧
    (h.validateFn = none → (formRun h ops).errors = []) ∧
    (∀ f, h.validateFn = some f →
      (formRun h []).errors = f h.initialForm ∧
      (∀ name ty value checked,
        (formRun h (ops ++ [FormOp.inputChange name ty value checked])).errors
          = f (formRun h (ops ++ [FormOp.inputChange name ty value checked])).formState) ∧
      ((formRun h ops).sameRefAsInitial = false →
        (formRun h (ops ++ [FormOp.resetForm])).errors
          = f (formRun h (ops ++ [FormOp.resetForm])).formState)) := by
  refine ⟨?_, ?_, ?_⟩
  · simp [formIsValid, List.isEmpty_iff]
  · intro hv
    have aux : ∀ (l : List FormOp) (s : UseFormState), s.errors = [] →
        (l.foldl (formStep h) s).errors = [] := by
      intro l
      induction l with
      | nil => intro s hs; exact hs
      | cons op rest ih =>
          intro s hs
          apply ih
          cases op <;> simp [formStep, runValidationEffect, hv, hs]
    apply aux
    simp [formInit, runValidationEffect, hv]
  · intro f hf
    refine ⟨?_, ?_, ?_⟩
    · simp [formRun, formInit, runValidationEffect, hf]
    · intro name ty value checked
      have hfold : formRun h (ops ++ [FormOp.inputChange name ty value checked])
          = formStep h (formRun h ops) (FormOp.inputChange name ty value checked) := by
        simp [formRun, List.foldl_append]
      rw [hfold]
      simp [formStep, runValidationEffect, hf]
    · intro hr
      have hfold : formRun h (ops ++ [FormOp.resetForm])
          = formStep h (formRun h ops) FormOp.resetForm := by
        simp [formRun, List.foldl_append]
      rw [hfold]
      simp [formStep, runValidationEffect, hf, hr]

/-- Witness for C6: the no-validation hook keeps errors empty, and the sample
hook's errors equal the validator applied to the form state after an edit. -/
theorem C6_witness :
    (formRun formNoVal [FormOp.resetForm]).errors = [] ∧
    (formRun formSample (([] : List FormOp)
        ++ [FormOp.inputChange "name" "text" "Kevin" false])).errors
      = sampleValidate (formRun formSample (([] : List FormOp)
        ++ [FormOp.inputChange "name" "text" "Kevin" false])).formState := by
  refine ⟨(C6_validation_invariant formNoVal [FormOp.resetForm]).2.1 rfl, ?_⟩
  exact ((C6_validation_invariant formSample []).2.2 sampleValidate rfl).2.1
    "name" "text" "Kevin" false

end ReactCustomTools
